import Mathlib

/-!
Verification development for the `claif` dispatch core.

This file gives a shallow embedding, in Lean 4, of the parts of the `claif`
Python package that the specification's claims are about:

* the message data model (`src/claif/common/types.py`),
* the error classes (`src/claif/common/errors.py`),
* the retrying invoker (`BaseProvider.query` in `src/claif/providers/base.py`,
  including the `tenacity` wait/stop/retry configuration it uses),
* the dispatch core (`ClaifClient` in `src/claif/client.py`): single-provider
  query with auto-remediation, random-provider query, parallel all-provider
  query, and rotation-on-failure.

Modelling conventions: Python floats are modelled as rationals, `None` as
`Option.none`, exceptions as values of an error type that carries the
optional `__cause__` set by `raise ... from e`.  Asynchronous generators are
modelled by the list of messages they yield together with the error, if any,
that terminated them.  External collaborators (the provider adapters' actual
backends and the per-provider install hooks, which live in separate packages)
enter as explicit environment parameters, keyed by adapter-instance identity
so that a freshly constructed adapter may behave differently from the one it
replaces.
-/

namespace Claif

/-- The `Provider` enum of `src/claif/common/types.py`: a closed enumeration
of the supported backends. -/
inductive Provider where
  | claude
  | gemini
  | codex
deriving DecidableEq, Repr

/-- The `Provider.value` strings: the string value of each enum member. -/
def Provider.value : Provider → String
  | .claude => "claude"
  | .gemini => "gemini"
  | .codex => "codex"

/-- The `MessageRole` enum of `src/claif/common/types.py`. -/
inductive MessageRole where
  | user
  | assistant
  | system
  | result
deriving DecidableEq, Repr

/-- The `TextBlock` dataclass: `type: str = "text"`, `text: str = ""`. -/
structure TextBlock where
  type : String := "text"
  text : String := ""
deriving DecidableEq, Repr

/-- The `ToolUseBlock` dataclass.  The dynamically typed `input: dict[str, Any]`
is modelled as an association list with string values. -/
structure ToolUseBlock where
  type : String := "tool_use"
  id : String := ""
  name : String := ""
  input : List (String × String) := []
deriving DecidableEq, Repr

/-- The `ToolResultBlock` dataclass.  Its `content: List[Union[TextBlock, Any]]`
is modelled by its statically declared variant, a list of text blocks. -/
structure ToolResultBlock where
  type : String := "tool_result"
  tool_use_id : String := ""
  content : List TextBlock := []
  is_error : Bool := false
deriving DecidableEq, Repr

/-- The union `ContentBlock = Union[TextBlock, ToolUseBlock, ToolResultBlock]`. -/
inductive ContentBlock where
  | text (b : TextBlock)
  | toolUse (b : ToolUseBlock)
  | toolResult (b : ToolResultBlock)
deriving DecidableEq, Repr

/-- The constructor argument of `Message.content`: a bare string or a list of
content blocks (`Union[str, List[ContentBlock]]`). -/
inductive MessageContent where
  | str (s : String)
  | blocks (bs : List ContentBlock)
deriving DecidableEq, Repr

/-- The `Message` dataclass: a role and a content field. -/
structure Message where
  role : MessageRole
  content : MessageContent
deriving DecidableEq, Repr

/-- The hook `Message.__post_init__`: if `content` is a string, wrap it into a
one-element list holding a single `TextBlock`. -/
def Message.postInit (m : Message) : Message :=
  match m.content with
  | .str s => { m with content := .blocks [ContentBlock.text { text := s }] }
  | .blocks _ => m

/-- Constructing a `Message`: the dataclass `__init__` followed by
`__post_init__`. -/
def Message.construct (role : MessageRole) (content : MessageContent) : Message :=
  Message.postInit { role := role, content := content }

/-- The `ClaifOptions` dataclass with its field defaults
(`src/claif/common/types.py`).  Floats are modelled as rationals. -/
structure ClaifOptions where
  provider : Option Provider := none
  model : Option String := none
  temperature : Option ℚ := none
  max_tokens : Option Int := none
  system_prompt : Option String := none
  timeout : Option Int := none
  verbose : Bool := false
  output_format : String := "text"
  config_file : Option String := none
  session_id : Option String := none
  cache : Bool := false
  retry_count : Int := 3
  retry_delay : ℚ := 1
  no_retry : Bool := false
deriving DecidableEq, Repr

/-- The option-copy idiom of the dispatch core
(`ClaifOptions(**options.__dict__)` followed by assigning
`provider_options.provider = provider`, used by `query_all`,
`query_with_rotation` and, via in-place mutation of the options object,
`query_random`): a fresh copy of the options with only the `provider` field
overridden. -/
def optionsFor (opts : ClaifOptions) (p : Provider) : ClaifOptions :=
  { opts with provider := some p }

/-- Extra structured context attached to an error (the `details` dict of
`ClaifError.__init__`).  Only the keys the dispatch core actually writes are
modelled: `providers_tried` and `last_error` (rotation's aggregate error) and
`retry_error_details` (the invoker's fallback error). -/
structure ErrorDetails where
  providers_tried : List String := []
  last_error : Option String := none
  retry_error_details : Option String := none
deriving DecidableEq, Repr

/-- Exception values as the dispatch core distinguishes them
(`src/claif/common/errors.py` plus the builtin exception types named in the
retry configuration).  Each carries the message string and the optional
`__cause__` installed by `raise ... from e`; `providerError` additionally
carries the provider name and optional `details`. -/
inductive PyError : Type where
  | providerError (provider : String) (message : String)
      (details : Option ErrorDetails) (cause : Option PyError)
  | claifTimeoutError (message : String) (cause : Option PyError)
  | connectionError (message : String) (cause : Option PyError)
  | timeoutError (message : String) (cause : Option PyError)
  | otherError (message : String) (cause : Option PyError)

/-- The string form `str(e)` of the modelled exceptions.  `ProviderError.__init__` passes
`f"{provider}: {message}"` to `Exception.__init__`, so its string form is the
provider-prefixed message; the other classes show their message. -/
def PyError.str : PyError → String
  | .providerError p m _ _ => p ++ ": " ++ m
  | .claifTimeoutError m _ => m
  | .connectionError m _ => m
  | .timeoutError m _ => m
  | .otherError m _ => m

/-- The `__cause__` of a modelled exception. -/
def PyError.cause : PyError → Option PyError
  | .providerError _ _ _ c => c
  | .claifTimeoutError _ c => c
  | .connectionError _ c => c
  | .timeoutError _ c => c
  | .otherError _ c => c

/-- Lowercasing of a string, character by character (`str.lower()` for the
ASCII error texts involved here). -/
def strLower (s : String) : String := ⟨s.data.map Char.toLower⟩

/-- Whether `needle` occurs as a contiguous run inside `hay`
(the Python `needle in haystack` substring test, on character lists). -/
def charsContain (hay needle : List Char) : Bool :=
  if needle.isPrefixOf hay then true
  else
    match hay with
    | [] => false
    | _ :: t => charsContain t needle

/-- The Python substring test `needle in haystack` on strings. -/
def strContains (haystack needle : String) : Bool :=
  charsContain haystack.data needle.data

/-- The fixed indicator list of `_is_cli_missing_error`
(`src/claif/client.py`). -/
def error_indicators : List String :=
  [ "command not found",
    "no such file or directory",
    "is not recognized as an internal or external command",
    "cannot find",
    "not found",
    "executable not found",
    "permission denied",
    "filenotfounderror",
    "claude not found",
    "gemini not found",
    "codex not found" ]

/-- The heuristic `_is_cli_missing_error` (`src/claif/client.py`): lowercase the error's
string form and test it against each indicator substring. -/
def is_cli_missing_error (error : PyError) : Bool :=
  let error_str := strLower error.str
  error_indicators.any (fun indicator => strContains error_str indicator)

/-!
The Retrying Invoker: `BaseProvider.query` (`src/claif/providers/base.py`).

One invocation of `_query_impl` is modelled by the list of messages it yields
before either finishing normally (`error = none`) or raising
(`error = some e`); a (possibly stateful) provider implementation is a
function from the 1-based attempt number to such an outcome.
-/

/-- Outcome of one invocation of a provider's raw streaming call. -/
structure AttemptResult where
  messages : List Message
  error : Option PyError

/-- The retryable exception tuple of `BaseProvider.query`:
`(ProviderError, ClaifTimeoutError, ConnectionError, TimeoutError)`. -/
def is_retryable : PyError → Bool
  | .providerError .. => true
  | .claifTimeoutError .. => true
  | .connectionError .. => true
  | .timeoutError .. => true
  | .otherError .. => false

/-- The wait strategy `tenacity.wait_exponential` as configured in `BaseProvider.query`:
`multiplier = retry_delay`, `min = retry_delay`, `max = retry_delay * 10`,
`exp_base = 2`.  Computed, per tenacity, as
`max(max(0, min), min(multiplier * exp_base ** (attempt_number - 1), max))`,
where `attempt_number` is the 1-based number of the attempt that just
failed. -/
def wait_exponential_claif (retry_delay : ℚ) (attempt_number : ℕ) : ℚ :=
  max (max 0 retry_delay)
    (min (retry_delay * 2 ^ (attempt_number - 1)) (retry_delay * 10))

/-- The observable behaviour of one `BaseProvider.query` call: the messages
yielded to the consumer (across every attempt), the error finally raised (if
any), the 1-based number of the last attempt performed, and the sleeps taken
between attempts. -/
structure InvokerTrace where
  yielded : List Message
  error : Option PyError
  invocations : ℕ
  waits : List ℚ

/-- The synthetic error raised by an attempt that completes with zero
messages yielded. -/
def noResponseError (name : String) : PyError :=
  .providerError name
    "No response received from provider after successful query execution." none none

/-- The retry loop of `BaseProvider.query` with retries enabled, from
`attempt` (1-based) onwards.  Per the tenacity configuration
(`stop_after_attempt retry_count`, `retry_if_exception_type` over the
retryable tuple, `reraise = True`): a retryable failure sleeps and retries
while the attempt number is below `retry_count` and is reraised once the stop
condition holds; a non-retryable exception propagates immediately; an
attempt that yields no messages raises the synthetic no-response
`ProviderError`, which is itself retryable; an attempt that yields at least
one message and finishes returns. -/
def retryLoop (name : String) (opts : ClaifOptions) (impl : ℕ → AttemptResult)
    (attempt : ℕ) (acc : List Message) (waits : List ℚ) : InvokerTrace :=
  let r := impl attempt
  let acc' := acc ++ r.messages
  match r.error with
  | some e =>
    if is_retryable e then
      if (attempt : Int) < opts.retry_count then
        retryLoop name opts impl (attempt + 1) acc'
          (waits ++ [wait_exponential_claif opts.retry_delay attempt])
      else
        ⟨acc', some e, attempt, waits⟩
    else
      ⟨acc', some e, attempt, waits⟩
  | none =>
    if r.messages.isEmpty then
      if (attempt : Int) < opts.retry_count then
        retryLoop name opts impl (attempt + 1) acc'
          (waits ++ [wait_exponential_claif opts.retry_delay attempt])
      else
        ⟨acc', some (noResponseError name), attempt, waits⟩
    else
      ⟨acc', none, attempt, waits⟩
termination_by (opts.retry_count - attempt).toNat
decreasing_by
  all_goals omega

/-- The invoker `BaseProvider.query`: if retries are disabled (`no_retry` or
`retry_count <= 0`), a single invocation whose outcome is propagated
unchanged (no empty-stream check); otherwise the retry loop starting at
attempt 1. -/
def base_query (name : String) (opts : ClaifOptions) (impl : ℕ → AttemptResult) :
    InvokerTrace :=
  if opts.no_retry || opts.retry_count ≤ 0 then
    let r := impl 1
    ⟨r.messages, r.error, 1, []⟩
  else
    retryLoop name opts impl 1 [] []

/-!
The Dispatch Core: `ClaifClient` (`src/claif/client.py`).

Adapter instances are modelled by the provider they serve together with a
construction identity (Python object identity): `ClaudeProvider()` etc. in
`__init__` and `_recreate_provider_instance` each mint a fresh identity.
The registry `self.providers` is a dict whose key set is fixed at the three
providers in insertion order; only its values are ever replaced, so it is
modelled by a total function from `Provider` plus the fixed iteration
order. -/

/-- An adapter instance in the registry: which provider class it is, and its
object identity. -/
structure ProviderInstance where
  provider : Provider
  instanceId : ℕ
deriving DecidableEq, Repr

/-- The iteration order of the `self.providers` dict, fixed by the insertion
order in `ClaifClient.__init__`: CLAUDE, GEMINI, CODEX. -/
def registryOrder : List Provider := [.claude, .gemini, .codex]

/-- The `ClaifClient` state: the registry, plus the next fresh object
identity for modelling adapter construction. -/
structure ClaifClient where
  providers : Provider → ProviderInstance
  nextId : ℕ

/-- The constructor `ClaifClient.__init__`: one freshly constructed adapter per provider. -/
def ClaifClient.init : ClaifClient :=
  { providers := fun p =>
      match p with
      | .claude => ⟨.claude, 0⟩
      | .gemini => ⟨.gemini, 1⟩
      | .codex => ⟨.codex, 2⟩,
    nextId := 3 }

/-- Registry well-formedness: every registered instance serves its own key
and predates the fresh-identity counter.  Holds for `ClaifClient.init` and is
preserved by `_recreate_provider_instance`. -/
def ClaifClient.wf (c : ClaifClient) : Prop :=
  ∀ p : Provider, (c.providers p).provider = p ∧ (c.providers p).instanceId < c.nextId

/-- The helper `ClaifClient._recreate_provider_instance`: construct a fresh adapter for
`p`, store it in the registry under `p`, and return it (paired with the
updated client state). -/
def ClaifClient.recreate_provider_instance (c : ClaifClient) (p : Provider) :
    ClaifClient × ProviderInstance :=
  let inst : ProviderInstance := ⟨p, c.nextId⟩
  ({ providers := fun q => if q = p then inst else c.providers q,
     nextId := c.nextId + 1 }, inst)

/-- The structured result returned by a provider's install hook
(`{"installed": bool, "message": str}`; `message` may be absent, hence the
`Option`, read back with `.get("message", ...)`). -/
structure InstallResult where
  installed : Bool
  message : Option String := none
deriving DecidableEq, Repr

/-- The external collaborators of the dispatch core: the behaviour of each
adapter instance's `query` call (the messages it yields and the error, if
any, that ends it), and the per-provider install hook as surfaced by
`_get_provider_install_function` (`none` models a provider with no install
function available). -/
structure Env where
  call : ProviderInstance → String → ClaifOptions → AttemptResult
  installFunc : Provider → Option InstallResult

/-- Result of a `ClaifClient.query` call: the client state after the call
(the registry entry may have been replaced by remediation), the messages
yielded, the error raised (if any), how many times the install hook was
invoked, and the adapter instances queried, in order. -/
structure DispatchResult where
  client : ClaifClient
  yielded : List Message
  error : Option PyError
  installCalls : ℕ
  attempts : List ProviderInstance

/-- Python `str.title()` restricted to the single lowercase words it is
applied to here (`"claude"`, `"gemini"`, `"codex"`): capitalize the first
character. -/
def strTitle (s : String) : String := s.capitalize

/-- The single-provider path `ClaifClient.query` (`src/claif/client.py`): resolve the provider
(`options.provider` or the CLAUDE default), query its registered adapter
instance, and on an error matching the missing-CLI heuristic run the
remediation flow: look up the install function; if it reports
`installed: true`, replace the registry entry with a freshly constructed
instance and retry exactly once, propagating a second failure verbatim; if it
reports failure, or no install function exists, raise a `ProviderError`
wrapping the original error as its cause.  A non-matching error is reraised
directly. -/
def ClaifClient.query (c : ClaifClient) (env : Env) (prompt : String)
    (options : Option ClaifOptions) : DispatchResult :=
  let opts := options.getD {}
  let provider := opts.provider.getD .claude
  let provider_instance := c.providers provider
  let r := env.call provider_instance prompt opts
  match r.error with
  | none => ⟨c, r.messages, none, 0, [provider_instance]⟩
  | some e =>
    if is_cli_missing_error e then
      match env.installFunc provider with
      | some install_result =>
        if install_result.installed then
          let rec' := c.recreate_provider_instance provider
          let r2 := env.call rec'.2 prompt opts
          ⟨rec'.1, r.messages ++ r2.messages, r2.error, 1, [provider_instance, rec'.2]⟩
        else
          let error_msg := install_result.message.getD "Unknown auto-installation error."
          ⟨c, r.messages,
            some (.providerError provider.value
              (strTitle provider.value ++ " CLI not found and auto-install failed: " ++ error_msg)
              none (some e)),
            1, [provider_instance]⟩
      | none =>
        ⟨c, r.messages,
          some (.providerError provider.value
            (strTitle provider.value ++ " CLI not found and no auto-install available.")
            none (some e)),
          0, [provider_instance]⟩
    else
      ⟨c, r.messages, some e, 0, [provider_instance]⟩

/-- Result of a `ClaifClient.query_random` call: the provider chosen, the
caller's options object after the call (`none` when the caller passed
`None` — the internally constructed defaults are not caller-visible), the
options object actually used for the delegated query, and that query's
result. -/
structure RandomQueryResult where
  chosen : Provider
  callerOptions : Option ClaifOptions
  usedOptions : ClaifOptions
  result : DispatchResult

/-- The random path `ClaifClient.query_random` (`src/claif/client.py`): pick a provider
uniformly at random from `list(self.providers.keys())`, write it into the
options object's `provider` field (mutating the caller's object when one was
passed, else a fresh internal `ClaifOptions()`), and delegate to
`ClaifClient.query`.  The randomness source `random.choice` is modelled by
the draw `i`: `random.choice(seq)` returns `seq[j]` for a uniformly random
`j < len(seq)`, here `j = i % len(seq)`. -/
def ClaifClient.query_random (c : ClaifClient) (env : Env) (i : ℕ) (prompt : String)
    (options : Option ClaifOptions) : RandomQueryResult :=
  let opts := options.getD {}
  let keys := registryOrder
  let provider := keys.getD (i % keys.length) .claude
  let opts' := optionsFor opts provider
  { chosen := provider,
    callerOptions := options.map (fun _ => opts'),
    usedOptions := opts',
    result := c.query env prompt (some opts') }

/-- The inner `query_provider` task of `ClaifClient.query_all`: query one
provider with a fresh copy of the caller's options in which only `provider`
is overridden; a raising query degrades to an empty message list. -/
def query_provider (c : ClaifClient) (env : Env) (prompt : String)
    (opts : ClaifOptions) (p : Provider) : Provider × List Message :=
  let provider_options := optionsFor opts p
  let qr := c.query env prompt (some provider_options)
  match qr.error with
  | none => (p, qr.yielded)
  | some _ => (p, [])

/-- The parallel path `ClaifClient.query_all` (`src/claif/client.py`): one `query_provider`
task per registered provider (all started against the same client state),
gathered into a provider-to-messages mapping, modelled as an association
list in registry order. -/
def ClaifClient.query_all (c : ClaifClient) (env : Env) (prompt : String)
    (options : Option ClaifOptions) : List (Provider × List Message) :=
  let opts := options.getD {}
  registryOrder.map (query_provider c env prompt opts)

/-- The provider order tried by `ClaifClient.query_with_rotation`: the
primary (`options.provider` or the CLAUDE default) first, then the registry
iteration order with the primary filtered out. -/
def providers_to_try (opts : ClaifOptions) : List Provider :=
  let primary := opts.provider.getD .claude
  primary :: registryOrder.filter (fun q => q ≠ primary)

/-- One iteration of the rotation loop, for the trace: which provider was
tried, what its query yielded, and the error (if any) it ended with. -/
structure RotationStep where
  provider : Provider
  messages : List Message
  error : Option PyError

/-- Result of a `ClaifClient.query_with_rotation` call, with the per-provider
trace `log` in attempt order. -/
structure RotationResult where
  client : ClaifClient
  yielded : List Message
  error : Option PyError
  providers_tried : List String
  log : List RotationStep

/-- The `for provider in providers_to_try` loop of
`ClaifClient.query_with_rotation`: query each provider (through the full
single-provider path, on a copy of the options with `provider` overridden);
return on the first success; on failure, if the current provider equals
`providers_to_try[-1]`, raise the aggregate `ProviderError` whose details
name the providers tried in order and whose cause is the last error;
otherwise advance to the next provider. -/
def rotationGo (env : Env) (prompt : String) (opts : ClaifOptions)
    (full : List Provider) :
    ClaifClient → List Provider → List String → List Message →
      List RotationStep → RotationResult
  | c, [], tried, acc, log => ⟨c, acc, none, tried, log⟩
  | c, p :: rest, tried, acc, log =>
    let current_options := optionsFor opts p
    let tried' := tried ++ [p.value]
    let qr := c.query env prompt (some current_options)
    match qr.error with
    | none =>
      ⟨qr.client, acc ++ qr.yielded, none, tried', log ++ [⟨p, qr.yielded, none⟩]⟩
    | some e =>
      if some p = full.getLast? then
        ⟨qr.client, acc ++ qr.yielded,
          some (.providerError "all" "All providers failed after retry attempts"
            (some ⟨tried', some e.str, none⟩) (some e)),
          tried', log ++ [⟨p, qr.yielded, some e⟩]⟩
      else
        rotationGo env prompt opts full qr.client rest tried' (acc ++ qr.yielded)
          (log ++ [⟨p, qr.yielded, some e⟩])

/-- The rotation path `ClaifClient.query_with_rotation` (`src/claif/client.py`). -/
def ClaifClient.query_with_rotation (c : ClaifClient) (env : Env) (prompt : String)
    (options : Option ClaifOptions) : RotationResult :=
  let opts := options.getD {}
  let full := providers_to_try opts
  rotationGo env prompt opts full c full [] [] []

/-!
Theorems settling the claims, one per claim, with closed witnesses where the
theorem carries hypotheses.
-/

/-- C9: constructing a `Message` with a bare string content `s` yields
content `[TextBlock(text = s)]`; constructing with a block-list content
leaves it unchanged; the normalization is idempotent; and content is never a
bare string after construction. -/
theorem C9_message_normalization :
    (∀ (r : MessageRole) (s : String),
        (Message.construct r (.str s)).content =
          .blocks [ContentBlock.text { type := "text", text := s }])
  ∧ (∀ (r : MessageRole) (bs : List ContentBlock),
        (Message.construct r (.blocks bs)).content = .blocks bs)
  ∧ (∀ m : Message, Message.postInit (Message.postInit m) = Message.postInit m)
  ∧ (∀ (r : MessageRole) (cnt : MessageContent),
        ∃ bs, (Message.construct r cnt).content = .blocks bs) := by
  refine ⟨fun r s => rfl, fun r bs => rfl, fun m => ?_, fun r cnt => ?_⟩
  · cases m with
    | mk role content => cases content <;> rfl
  · cases cnt with
    | str s => exact ⟨_, rfl⟩
    | blocks bs => exact ⟨bs, rfl⟩

/-- C10: `query_random` called with `options = None` builds a fresh default
`ClaifOptions` internally, records the random selection only in that internal
object, and delegates with it; nothing caller-visible records the chosen
provider. -/
theorem C10_query_random_none_options (c : ClaifClient) (env : Env) (i : ℕ)
    (prompt : String) :
    (c.query_random env i prompt none).callerOptions = none
  ∧ (c.query_random env i prompt none).usedOptions =
      optionsFor {} (c.query_random env i prompt none).chosen
  ∧ (c.query_random env i prompt none).result =
      c.query env prompt (some (c.query_random env i prompt none).usedOptions) :=
  ⟨rfl, rfl, rfl⟩

/-- C8: `query_random` with a non-`None` options object selects a provider
from the registry key set (each registered provider is chosen by exactly one
of the `registryOrder.length` equally likely draws), writes the selection
into the passed-in options object's `provider` field, and delegates to the
single-provider `query` path with those options. -/
theorem C8_query_random_observable_selection (c : ClaifClient) (env : Env)
    (i : ℕ) (prompt : String) (opts : ClaifOptions) (p : Provider)
    (hp : p ∈ registryOrder) :
    (c.query_random env i prompt (some opts)).chosen ∈ registryOrder
  ∧ ((List.range registryOrder.length).map
        (fun j => (c.query_random env j prompt (some opts)).chosen)).count p = 1
  ∧ (c.query_random env i prompt (some opts)).callerOptions =
      some (optionsFor opts (c.query_random env i prompt (some opts)).chosen)
  ∧ (c.query_random env i prompt (some opts)).result =
      c.query env prompt
        (some (optionsFor opts (c.query_random env i prompt (some opts)).chosen)) := by
  refine ⟨?_, ?_, rfl, rfl⟩
  · show registryOrder.getD (i % registryOrder.length) .claude ∈ registryOrder
    have hlen : i % registryOrder.length < registryOrder.length := by
      exact Nat.mod_lt _ (by simp [registryOrder])
    rw [List.getD_eq_getElem _ _ hlen]
    exact List.getElem_mem hlen
  · fin_cases hp <;> rfl

/-- Closed witness for C8 at a concrete client, environment and options. -/
theorem C8_query_random_observable_selection_witness :
    (ClaifClient.init.query_random
        { call := fun _ _ _ => ⟨[], none⟩
          installFunc := fun _ => none } 1 "hi" (some {})).chosen ∈ registryOrder :=
  (C8_query_random_observable_selection ClaifClient.init
      { call := fun _ _ _ => ⟨[], none⟩
        installFunc := fun _ => none } 1 "hi" {} .gemini (by decide)).1

/-- C7: for every attempt number `n ≥ 1` at which the Retrying Invoker
retries, the wait before the next attempt is
`min (retry_delay * 2 ^ (n - 1)) (retry_delay * 10)` with a floor of
`retry_delay` (the floor being subsumed by the formula), attempts being
numbered from 1; and the retry loop's step at a retryable failure sleeps for
exactly `wait_exponential_claif retry_delay n` before attempt `n + 1`. -/
theorem C7_exponential_backoff (d : ℚ) (n : ℕ) (hd : 0 ≤ d) (hn : 1 ≤ n) :
    wait_exponential_claif d n = min (d * 2 ^ (n - 1)) (d * 10)
  ∧ d ≤ wait_exponential_claif d n
  ∧ ∀ (name : String) (opts : ClaifOptions) (impl : ℕ → AttemptResult)
      (acc : List Message) (ws : List ℚ) (e : PyError),
      (impl n).error = some e → is_retryable e = true →
      (n : Int) < opts.retry_count →
      retryLoop name opts impl n acc ws =
        retryLoop name opts impl (n + 1) (acc ++ (impl n).messages)
          (ws ++ [wait_exponential_claif opts.retry_delay n]) := by
  have hpow : (1 : ℚ) ≤ 2 ^ (n - 1) := one_le_pow₀ (by norm_num)
  have h1 : d ≤ d * 2 ^ (n - 1) := le_mul_of_one_le_right hd hpow
  have h2 : d ≤ d * 10 := le_mul_of_one_le_right hd (by norm_num)
  have hmin : d ≤ min (d * 2 ^ (n - 1)) (d * 10) := le_min h1 h2
  have hform : wait_exponential_claif d n = min (d * 2 ^ (n - 1)) (d * 10) := by
    unfold wait_exponential_claif
    rw [max_eq_right hd, max_eq_right hmin]
  refine ⟨hform, hform ▸ hmin, ?_⟩
  intro name opts impl acc ws e he hr hlt
  rw [retryLoop]
  simp only [he, hr, if_pos hlt, if_true]

/-- Closed witness for C7 at `retry_delay = 1`, attempt 3: the wait is
`min (1 * 2 ^ 2) (1 * 10)` and at least the delay floor. -/
theorem C7_exponential_backoff_witness :
    wait_exponential_claif 1 3 = min ((1 : ℚ) * 2 ^ (3 - 1)) (1 * 10)
  ∧ (1 : ℚ) ≤ wait_exponential_claif 1 3 :=
  ⟨(C7_exponential_backoff 1 3 (by norm_num) (by norm_num)).1,
   (C7_exponential_backoff 1 3 (by norm_num) (by norm_num)).2.1⟩

/-- C1: for a single-provider query whose provider call fails with a
missing-executable error and whose install hook reports `installed: true`,
the dispatch core invokes the hook exactly once, replaces the registry entry
with a freshly constructed adapter instance distinct from the original,
makes exactly one additional attempt against that new instance, and
propagates the second attempt's outcome verbatim (in particular a second
failure is reraised as-is, with no further remediation). -/
theorem C1_remediation_success_retries_once (c : ClaifClient) (env : Env)
    (prompt : String) (options : Option ClaifOptions) (p : Provider)
    (e : PyError) (ir : InstallResult)
    (hwf : c.wf)
    (hp : (options.getD {}).provider.getD Provider.claude = p)
    (he : (env.call (c.providers p) prompt (options.getD {})).error = some e)
    (hmiss : is_cli_missing_error e = true)
    (hif : env.installFunc p = some ir)
    (hinst : ir.installed = true) :
    (c.query env prompt options).installCalls = 1
  ∧ (c.query env prompt options).client.providers p = ⟨p, c.nextId⟩
  ∧ (c.query env prompt options).client.providers p ≠ c.providers p
  ∧ (c.query env prompt options).attempts =
      [c.providers p, (⟨p, c.nextId⟩ : ProviderInstance)]
  ∧ (c.query env prompt options).error =
      (env.call ⟨p, c.nextId⟩ prompt (options.getD {})).error
  ∧ (c.query env prompt options).yielded =
      (env.call (c.providers p) prompt (options.getD {})).messages ++
        (env.call ⟨p, c.nextId⟩ prompt (options.getD {})).messages := by
  subst hp
  simp only [ClaifClient.query, ClaifClient.recreate_provider_instance, he, hmiss, hif,
    hinst, if_true]
  refine ⟨trivial, trivial, ?_, trivial, trivial, trivial⟩
  intro hcontra
  have hlt := (hwf ((options.getD {}).provider.getD Provider.claude)).2
  rw [← hcontra] at hlt
  simp at hlt

/-- Closed witness for C1: the initial client, an environment whose original
claude adapter reports a missing CLI and whose install hook succeeds. -/
theorem C1_remediation_success_retries_once_witness :
    (ClaifClient.init.query
        { call := fun inst _ _ =>
            if inst.instanceId = 0 then ⟨[], some (.otherError "claude not found" none)⟩
            else ⟨[], none⟩
          installFunc := fun _ => some ⟨true, none⟩ } "hi" none).installCalls = 1 :=
  (C1_remediation_success_retries_once ClaifClient.init
      { call := fun inst _ _ =>
          if inst.instanceId = 0 then ⟨[], some (.otherError "claude not found" none)⟩
          else ⟨[], none⟩
        installFunc := fun _ => some ⟨true, none⟩ }
      "hi" none Provider.claude (.otherError "claude not found" none) ⟨true, none⟩
      (by intro p; cases p <;> simp [ClaifClient.init])
      rfl rfl rfl rfl rfl).1

/-- C2: for a single-provider query whose provider call fails with a
missing-executable error, if the install hook reports `installed: false` the
dispatch core raises a `ProviderError` wrapping the original error as its
cause, after exactly one remediation call and with no further query attempt;
and if no install function is mapped for the provider it raises a
`ProviderError` wrapping the original error, with no remediation call and no
further query attempt. -/
theorem C2_remediation_failure_no_retry (c : ClaifClient) (env : Env)
    (prompt : String) (options : Option ClaifOptions) (p : Provider)
    (e : PyError) (ir : InstallResult)
    (hp : (options.getD {}).provider.getD Provider.claude = p)
    (he : (env.call (c.providers p) prompt (options.getD {})).error = some e)
    (hmiss : is_cli_missing_error e = true) :
    (env.installFunc p = some ir → ir.installed = false →
        (c.query env prompt options).error =
          some (.providerError p.value
            (strTitle p.value ++ " CLI not found and auto-install failed: " ++
              ir.message.getD "Unknown auto-installation error.")
            none (some e))
      ∧ (c.query env prompt options).attempts = [c.providers p]
      ∧ (c.query env prompt options).installCalls = 1
      ∧ (c.query env prompt options).client = c)
  ∧ (env.installFunc p = none →
        (c.query env prompt options).error =
          some (.providerError p.value
            (strTitle p.value ++ " CLI not found and no auto-install available.")
            none (some e))
      ∧ (c.query env prompt options).attempts = [c.providers p]
      ∧ (c.query env prompt options).installCalls = 0
      ∧ (c.query env prompt options).client = c) := by
  subst hp
  constructor
  · intro hif hinst
    simp only [ClaifClient.query, he, hmiss, hif, hinst, if_true, Bool.false_eq_true,
      if_false]
    exact ⟨trivial, trivial, trivial, trivial⟩
  · intro hif
    simp only [ClaifClient.query, he, hmiss, hif, if_true]
    exact ⟨trivial, trivial, trivial, trivial⟩

/-- Closed witness for C2: install hook present but reporting failure. -/
theorem C2_remediation_failure_no_retry_witness :
    (ClaifClient.init.query
        { call := fun _ _ _ => ⟨[], some (.otherError "claude not found" none)⟩
          installFunc := fun _ => some ⟨false, some "npm failed"⟩ } "hi" none).error =
      some (.providerError "claude"
        "Claude CLI not found and auto-install failed: npm failed"
        none (some (.otherError "claude not found" none))) :=
  ((C2_remediation_failure_no_retry ClaifClient.init
      { call := fun _ _ _ => ⟨[], some (.otherError "claude not found" none)⟩
        installFunc := fun _ => some ⟨false, some "npm failed"⟩ }
      "hi" none Provider.claude (.otherError "claude not found" none)
      ⟨false, some "npm failed"⟩ rfl rfl rfl).1 rfl rfl).1

/-- The first component of a `query_provider` task's result is the provider
it was started for, in both the success and the failure branch. -/
theorem query_provider_fst (c : ClaifClient) (env : Env) (prompt : String)
    (opts : ClaifOptions) (q : Provider) :
    (query_provider c env prompt opts q).1 = q := by
  cases herr : (c.query env prompt (some (optionsFor opts q))).error <;>
    simp [query_provider, herr]

/-- Association-list lookup over a keyed map: if every entry produced by `g`
is keyed by its argument, looking up a member of the key list finds `g`'s
entry for it. -/
theorem lookup_map_keyed {β : Type} (g : Provider → Provider × β) (p : Provider)
    (hg : ∀ q, (g q).1 = q) :
    ∀ l : List Provider, p ∈ l → (l.map g).lookup p = some (g p).2 := by
  intro l hl
  induction l with
  | nil => cases hl
  | cons q t ih =>
    rcases List.mem_cons.mp hl with h | h
    · subst h
      have hq := hg p
      simp only [List.map_cons, List.lookup]
      rw [show g p = (p, (g p).2) from Prod.ext hq rfl]
      simp
    · by_cases hpq : p = q
      · subst hpq
        have hq := hg p
        simp only [List.map_cons, List.lookup]
        rw [show g p = (p, (g p).2) from Prod.ext hq rfl]
        simp
      · simp only [List.map_cons, List.lookup]
        rw [show g q = (q, (g q).2) from Prod.ext (hg q) rfl]
        have : (p == q) = false := by simp [hpq]
        simp only [this]
        exact ih h

/-- C4: `query_all` returns one entry per registered provider (key list
exactly the registry, in order); each provider is queried with a fresh copy
of the caller's options in which only `provider` is overridden (every other
field equal to the caller's); a provider whose query raises contributes an
empty list for its key, a successful provider contributes its own messages,
and every entry equals the outcome of that provider's own independent
single-provider query (so one provider's failure cannot affect another's
entry). -/
theorem C4_query_all_per_provider_isolation (c : ClaifClient) (env : Env)
    (prompt : String) (options : Option ClaifOptions) (p : Provider)
    (hp : p ∈ registryOrder) :
    (c.query_all env prompt options).map Prod.fst = registryOrder
  ∧ (optionsFor (options.getD {}) p).provider = some p
  ∧ (optionsFor (options.getD {}) p).model =
      (options.getD {}).model
  ∧ (optionsFor (options.getD {}) p).temperature =
      (options.getD {}).temperature
  ∧ (optionsFor (options.getD {}) p).max_tokens =
      (options.getD {}).max_tokens
  ∧ (optionsFor (options.getD {}) p).system_prompt =
      (options.getD {}).system_prompt
  ∧ (optionsFor (options.getD {}) p).timeout =
      (options.getD {}).timeout
  ∧ (optionsFor (options.getD {}) p).verbose =
      (options.getD {}).verbose
  ∧ (optionsFor (options.getD {}) p).output_format =
      (options.getD {}).output_format
  ∧ (optionsFor (options.getD {}) p).config_file =
      (options.getD {}).config_file
  ∧ (optionsFor (options.getD {}) p).session_id =
      (options.getD {}).session_id
  ∧ (optionsFor (options.getD {}) p).cache =
      (options.getD {}).cache
  ∧ (optionsFor (options.getD {}) p).retry_count =
      (options.getD {}).retry_count
  ∧ (optionsFor (options.getD {}) p).retry_delay =
      (options.getD {}).retry_delay
  ∧ (optionsFor (options.getD {}) p).no_retry =
      (options.getD {}).no_retry
  ∧ (c.query_all env prompt options).lookup p =
      some (query_provider c env prompt (options.getD {}) p).2
  ∧ ((c.query env prompt (some (optionsFor (options.getD {}) p))).error = none →
      (c.query_all env prompt options).lookup p =
        some (c.query env prompt
          (some (optionsFor (options.getD {}) p))).yielded)
  ∧ (∀ err,
      (c.query env prompt (some (optionsFor (options.getD {}) p))).error =
        some err →
      (c.query_all env prompt options).lookup p = some []) := by
  have hkeys : (c.query_all env prompt options).map Prod.fst = registryOrder := by
    show (registryOrder.map (query_provider c env prompt (options.getD {}))).map
      Prod.fst = registryOrder
    rw [List.map_map]
    have hcomp : Prod.fst ∘ query_provider c env prompt (options.getD {}) = id := by
      funext q
      exact query_provider_fst c env prompt (options.getD {}) q
    rw [hcomp, List.map_id]
  have hlook : (c.query_all env prompt options).lookup p =
      some (query_provider c env prompt (options.getD {}) p).2 :=
    lookup_map_keyed _ p (query_provider_fst c env prompt (options.getD {}))
      registryOrder hp
  refine ⟨hkeys, rfl, rfl, rfl, rfl, rfl, rfl, rfl, rfl, rfl, rfl, rfl, rfl, rfl, rfl,
    hlook, ?_, ?_⟩
  · intro herr
    rw [hlook]
    simp only [query_provider, herr]
  · intro err herr
    rw [hlook]
    simp only [query_provider, herr]

/-- Closed witness for C4: all three providers fail with a non-remediable
error, and gemini's entry is the empty list. -/
theorem C4_query_all_per_provider_isolation_witness :
    (ClaifClient.init.query_all
        { call := fun _ _ _ => ⟨[], some (.otherError "boom" none)⟩
          installFunc := fun _ => none } "hi" none).lookup Provider.gemini =
      some [] :=
  ((C4_query_all_per_provider_isolation ClaifClient.init
      { call := fun _ _ _ => ⟨[], some (.otherError "boom" none)⟩
        installFunc := fun _ => none }
      "hi" none Provider.gemini (by decide)).2.2.2.2.2.2.2.2.2.2.2.2.2.2.2.2.2
    (.otherError "boom" none) rfl)

/-- A non-retryable exception propagates from the retry loop at the attempt
where it occurs: no further attempt, no further wait. -/
theorem retryLoop_nonretryable (name : String) (opts : ClaifOptions)
    (impl : ℕ → AttemptResult) (a : ℕ) (acc : List Message) (ws : List ℚ)
    (ms : List Message) (e : PyError)
    (himpl : impl a = ⟨ms, some e⟩) (hr : is_retryable e = false) :
    retryLoop name opts impl a acc ws = ⟨acc ++ ms, some e, a, ws⟩ := by
  rw [retryLoop]
  simp [himpl, hr]

/-- If every attempt from `a` through `retry_count` yields no messages and
raises nothing, the retry loop retries each of them and finally raises the
synthetic no-response error, having performed attempt `retry_count` last. -/
theorem retryLoop_allEmpty (name : String) (opts : ClaifOptions)
    (impl : ℕ → AttemptResult) :
    ∀ (n a : ℕ) (acc : List Message) (ws : List ℚ),
      opts.retry_count.toNat - a = n → 1 ≤ a → (a : Int) ≤ opts.retry_count →
      (∀ k, a ≤ k → (k : Int) ≤ opts.retry_count → impl k = ⟨[], none⟩) →
      retryLoop name opts impl a acc ws =
        ⟨acc, some (noResponseError name), opts.retry_count.toNat,
          ws ++ (List.range' a n).map (wait_exponential_claif opts.retry_delay)⟩ := by
  intro n
  induction n with
  | zero =>
    intro a acc ws hn ha hle hempty
    have hstop : ¬ ((a : Int) < opts.retry_count) := by omega
    rw [retryLoop]
    simp [hempty a le_rfl hle, hstop]
    omega
  | succ n ih =>
    intro a acc ws hn ha hle hempty
    have hlt : (a : Int) < opts.retry_count := by omega
    rw [retryLoop]
    simp only [hempty a le_rfl hle, List.append_nil]
    rw [if_pos hlt]
    rw [ih (a + 1) acc (ws ++ [wait_exponential_claif opts.retry_delay a])
      (by omega) (by omega) (by omega)
      (fun k hk hk2 => hempty k (by omega) hk2)]
    rw [List.range'_succ]
    simp [List.append_assoc]

/-- C5: with retries enabled, an attempt whose stream completes with zero
messages and no error is treated as a retryable failure — the loop sleeps
and moves to the next attempt — and after `retry_count` consecutive empty
attempts the invoker raises the synthetic "no response received"
`ProviderError`, having yielded nothing. -/
theorem C5_empty_stream_is_retried (name : String) (opts : ClaifOptions)
    (impl : ℕ → AttemptResult)
    (hnr : opts.no_retry = false) (hrc : 1 ≤ opts.retry_count)
    (hempty : ∀ k : ℕ, 1 ≤ k → (k : Int) ≤ opts.retry_count → impl k = ⟨[], none⟩) :
    base_query name opts impl =
      ⟨[], some (noResponseError name), opts.retry_count.toNat,
        (List.range' 1 (opts.retry_count.toNat - 1)).map
          (wait_exponential_claif opts.retry_delay)⟩
  ∧ ∀ (a : ℕ) (acc : List Message) (ws : List ℚ),
      1 ≤ a → (a : Int) < opts.retry_count →
      retryLoop name opts impl a acc ws =
        retryLoop name opts impl (a + 1) acc
          (ws ++ [wait_exponential_claif opts.retry_delay a]) := by
  have hdis : (opts.no_retry || decide (opts.retry_count ≤ 0)) = false := by
    rw [hnr]
    simp only [Bool.false_or, decide_eq_false_iff_not]
    omega
  constructor
  · have hstart : base_query name opts impl = retryLoop name opts impl 1 [] [] := by
      unfold base_query
      rw [hdis]
      rfl
    rw [hstart]
    rw [retryLoop_allEmpty name opts impl (opts.retry_count.toNat - 1) 1 [] []
      (by omega) le_rfl (by omega) hempty]
    simp
  · intro a acc ws ha hlt
    rw [retryLoop]
    simp [hempty a ha (le_of_lt hlt), hlt]

/-- Closed witness for C5: the default options (`retry_count = 3`) and a
provider that always completes without yielding. -/
theorem C5_empty_stream_is_retried_witness :
    base_query "claude" {} (fun _ => ⟨[], none⟩) =
      ⟨[], some (noResponseError "claude"), Int.toNat 3,
        (List.range' 1 (Int.toNat 3 - 1)).map (wait_exponential_claif 1)⟩ :=
  (C5_empty_stream_is_retried "claude" {} (fun _ => ⟨[], none⟩) rfl (by norm_num)
      (fun k hk hk2 => rfl)).1

/-- C6: with `retry_count = 3`, retryable errors on attempts 1 and 2 and a
nonempty successful stream on attempt 3 lead to exactly 3 invocations, the
third attempt's messages, and no error; and (in general) an exception
outside the retryable set propagates from the attempt where it first
occurs, with no retry. -/
theorem C6_retryable_errors_then_success (name : String) (opts : ClaifOptions)
    (impl : ℕ → AttemptResult) (e1 e2 : PyError)
    (hnr : opts.no_retry = false) (hrc : opts.retry_count = 3)
    (h1 : impl 1 = ⟨[], some e1⟩) (hr1 : is_retryable e1 = true)
    (h2 : impl 2 = ⟨[], some e2⟩) (hr2 : is_retryable e2 = true)
    (h3 : (impl 3).error = none) (hm : (impl 3).messages ≠ []) :
    (base_query name opts impl).invocations = 3
  ∧ (base_query name opts impl).yielded = (impl 3).messages
  ∧ (base_query name opts impl).error = none
  ∧ ∀ (impl' : ℕ → AttemptResult) (a : ℕ) (acc : List Message) (ws : List ℚ)
      (ms : List Message) (e : PyError),
      impl' a = ⟨ms, some e⟩ → is_retryable e = false →
      retryLoop name opts impl' a acc ws = ⟨acc ++ ms, some e, a, ws⟩ := by
  have hrun : base_query name opts impl =
      ⟨(impl 3).messages, none, 3,
        [wait_exponential_claif opts.retry_delay 1,
         wait_exponential_claif opts.retry_delay 2]⟩ := by
    unfold base_query
    rw [if_neg (by simp [hnr, hrc])]
    rw [retryLoop]
    simp only [h1, hr1, hrc, if_true]
    rw [if_pos (by norm_num)]
    rw [retryLoop]
    simp only [h2, hr2, hrc, if_true, List.nil_append, List.append_nil]
    norm_num
    rw [retryLoop]
    simp only [h3]
    have hne : (impl 3).messages.isEmpty = false := by
      cases hmm : (impl 3).messages with
      | nil => exact absurd hmm hm
      | cons x t => rfl
    simp [hne]
  refine ⟨by rw [hrun], by rw [hrun], by rw [hrun], ?_⟩
  intro impl' a acc ws ms e himpl hr
  exact retryLoop_nonretryable name opts impl' a acc ws ms e himpl hr

/-- Closed witness for C6: a provider raising a retryable provider error on
attempts 1 and 2 and yielding one message on attempt 3. -/
theorem C6_retryable_errors_then_success_witness :
    (base_query "claude" {}
        (fun a => if a ≤ 2 then ⟨[], some (.providerError "claude" "boom" none none)⟩
          else ⟨[⟨.assistant, .str "ok"⟩], none⟩)).invocations = 3 :=
  (C6_retryable_errors_then_success "claude" {}
      (fun a => if a ≤ 2 then ⟨[], some (.providerError "claude" "boom" none none)⟩
        else ⟨[⟨.assistant, .str "ok"⟩], none⟩)
      (.providerError "claude" "boom" none none)
      (.providerError "claude" "boom" none none)
      rfl rfl rfl rfl rfl rfl rfl (by simp)).1

/-- In a duplicate-free list, an element equal to the last one has nothing
after it. -/
theorem nodup_middle_getLast {α : Type} (d r : List α) (p : α)
    (hnd : (d ++ p :: r).Nodup) (h : (d ++ p :: r).getLast? = some p) : r = [] := by
  by_contra hr
  rw [List.getLast?_append_of_ne_nil _ (by simp)] at h
  have hp : p ∈ r := by
    cases r with
    | nil => exact absurd rfl hr
    | cons q t =>
      rw [List.getLast?_cons_cons] at h
      exact List.mem_of_mem_getLast? h
  have hnp : p ∉ r := by
    have h2 := List.Nodup.of_append_right hnd
    exact (List.nodup_cons.mp h2).1
  exact hnp hp

/-- The provider order tried by rotation is duplicate-free: the primary
followed by the registry order with the primary filtered out. -/
theorem providers_to_try_nodup (opts : ClaifOptions) :
    (providers_to_try opts).Nodup := by
  unfold providers_to_try
  cases h : opts.provider with
  | none => simp only [h, Option.getD_none]; decide
  | some p => simp only [h, Option.getD_some]; cases p <;> decide

/-- Trace invariant of the rotation loop: called with the not-yet-tried
suffix `rem` of the full order, a log of previously failed steps and
matching accumulators, the loop extends the log by at least one step,
keeps the log a prefix of the full order, fails every step but possibly the
last, mirrors the log in `providers_tried` and in the yielded messages, and
ends either in success at the last logged step or, after the last provider
of the full order has failed, in the aggregate error naming every provider
of the full order in order with the final error as cause. -/
theorem rotationGo_trace (env : Env) (prompt : String) (opts : ClaifOptions)
    (full : List Provider) (hnd : full.Nodup) :
    ∀ (rem : List Provider) (c : ClaifClient) (log : List RotationStep)
      (tried : List String) (acc : List Message),
      full = log.map (fun s => s.provider) ++ rem → rem ≠ [] →
      (∀ s ∈ log, s.error ≠ none) →
      tried = log.map (fun s => s.provider.value) →
      acc = log.flatMap (fun s => s.messages) →
      (∃ rest, full =
          (rotationGo env prompt opts full c rem tried acc log).log.map
            (fun s => s.provider) ++ rest)
    ∧ log.length < (rotationGo env prompt opts full c rem tried acc log).log.length
    ∧ (∀ s ∈ (rotationGo env prompt opts full c rem tried acc log).log.dropLast,
          s.error ≠ none)
    ∧ (rotationGo env prompt opts full c rem tried acc log).providers_tried =
        (rotationGo env prompt opts full c rem tried acc log).log.map
          (fun s => s.provider.value)
    ∧ (rotationGo env prompt opts full c rem tried acc log).yielded =
        (rotationGo env prompt opts full c rem tried acc log).log.flatMap
          (fun s => s.messages)
    ∧ (∀ last,
        (rotationGo env prompt opts full c rem tried acc log).log.getLast? =
          some last →
        (last.error = none →
            (rotationGo env prompt opts full c rem tried acc log).error = none)
      ∧ (∀ e, last.error = some e →
            (rotationGo env prompt opts full c rem tried acc log).log.map
              (fun s => s.provider) = full
          ∧ (rotationGo env prompt opts full c rem tried acc log).error =
              some (.providerError "all" "All providers failed after retry attempts"
                (some ⟨full.map Provider.value, some e.str, none⟩) (some e)))) := by
  intro rem
  induction rem with
  | nil =>
    intro c log tried acc hfull hrem hfail htried hacc
    exact absurd rfl hrem
  | cons p rest ih =>
    intro c log tried acc hfull hrem hfail htried hacc
    cases hq : (c.query env prompt (some (optionsFor opts p))).error with
    | none =>
      have hrot : rotationGo env prompt opts full c (p :: rest) tried acc log =
          ⟨(c.query env prompt (some (optionsFor opts p))).client,
            acc ++ (c.query env prompt (some (optionsFor opts p))).yielded,
            none, tried ++ [p.value],
            log ++ [⟨p, (c.query env prompt (some (optionsFor opts p))).yielded, none⟩]⟩ := by
        simp only [rotationGo, hq]
      rw [hrot]
      refine ⟨⟨rest, by simp [hfull]⟩, by simp, ?_, by simp [htried], by simp [hacc], ?_⟩
      · intro s hs
        rw [List.dropLast_concat] at hs
        exact hfail s hs
      · intro last hlast
        rw [List.getLast?_concat] at hlast
        cases hlast
        exact ⟨fun _ => rfl, fun e he => by cases he⟩
    | some e =>
      by_cases hlast : some p = full.getLast?
      · have hrest : rest = [] := by
          rw [hfull] at hlast
          exact nodup_middle_getLast _ _ _ (hfull ▸ hnd) hlast.symm
        have hmapfull : (log ++
            [(⟨p, (c.query env prompt (some (optionsFor opts p))).yielded, some e⟩ :
              RotationStep)]).map (fun s => s.provider) = full := by
          rw [hfull, hrest]
          simp
        have hrot : rotationGo env prompt opts full c (p :: rest) tried acc log =
            ⟨(c.query env prompt (some (optionsFor opts p))).client,
              acc ++ (c.query env prompt (some (optionsFor opts p))).yielded,
              some (.providerError "all" "All providers failed after retry attempts"
                (some ⟨tried ++ [p.value], some e.str, none⟩) (some e)),
              tried ++ [p.value],
              log ++ [⟨p, (c.query env prompt (some (optionsFor opts p))).yielded,
                some e⟩]⟩ := by
          simp only [rotationGo, hq]
          rw [if_pos hlast]
        have htried2 : tried ++ [p.value] = full.map Provider.value := by
          rw [← hmapfull, htried]
          simp
        rw [hrot]
        refine ⟨⟨[], by rw [hmapfull, List.append_nil]⟩, by simp, ?_,
          by simp [htried], by simp [hacc], ?_⟩
        · intro s hs
          rw [List.dropLast_concat] at hs
          exact hfail s hs
        · intro last hlast2
          rw [List.getLast?_concat] at hlast2
          cases hlast2
          refine ⟨?_, ?_⟩
          · intro hno
            cases hno
          · intro e2 he2
            cases he2
            exact ⟨hmapfull, by rw [htried2]⟩
      · have hrest : rest ≠ [] := by
          intro hr
          rw [hr] at hfull
          rw [hfull] at hlast
          exact hlast (List.getLast?_concat _).symm
        have hrot : rotationGo env prompt opts full c (p :: rest) tried acc log =
            rotationGo env prompt opts full
              (c.query env prompt (some (optionsFor opts p))).client rest
              (tried ++ [p.value])
              (acc ++ (c.query env prompt (some (optionsFor opts p))).yielded)
              (log ++ [⟨p, (c.query env prompt (some (optionsFor opts p))).yielded,
                some e⟩]) := by
          simp only [rotationGo, hq]
          rw [if_neg hlast]
        rw [hrot]
        have hres := ih (c.query env prompt (some (optionsFor opts p))).client
          (log ++ [⟨p, (c.query env prompt (some (optionsFor opts p))).yielded, some e⟩])
          (tried ++ [p.value])
          (acc ++ (c.query env prompt (some (optionsFor opts p))).yielded)
          (by simpa using hfull) hrest
          (by
            intro s hs
            rcases List.mem_append.mp hs with h | h
            · exact hfail s h
            · rcases List.mem_singleton.mp h with rfl
              simp)
          (by simp [htried])
          (by simp [hacc])
        refine ⟨hres.1, ?_, hres.2.2.1, hres.2.2.2.1, hres.2.2.2.2.1, hres.2.2.2.2.2⟩
        have := hres.2.1
        simp only [List.length_append, List.length_singleton] at this
        omega

/-- C3: `query_with_rotation` tries the primary provider (`options.provider`
if set, else the CLAUDE default) first and then the remaining providers in
registry iteration order excluding the primary; the providers actually tried
form a prefix of that order; every tried provider except the last one in the
trace failed, so the first success stops the rotation; the tried-provider
record and the streamed messages mirror the trace; if the trace ends in a
failure then every provider of the order was tried and the result is the
single aggregate error naming all tried providers in order with the final
underlying error as its cause; and that aggregate is the only error this
mode can raise. -/
theorem C3_rotation_first_success_or_aggregate (c : ClaifClient) (env : Env)
    (prompt : String) (options : Option ClaifOptions) :
    providers_to_try (options.getD {}) =
      ((options.getD {}).provider.getD .claude) ::
        registryOrder.filter (fun q => q ≠ (options.getD {}).provider.getD .claude)
  ∧ (∃ rest, providers_to_try (options.getD {}) =
      (c.query_with_rotation env prompt options).log.map (fun s => s.provider) ++ rest)
  ∧ (c.query_with_rotation env prompt options).log ≠ []
  ∧ (∀ s ∈ (c.query_with_rotation env prompt options).log.dropLast, s.error ≠ none)
  ∧ (c.query_with_rotation env prompt options).providers_tried =
      (c.query_with_rotation env prompt options).log.map (fun s => s.provider.value)
  ∧ (c.query_with_rotation env prompt options).yielded =
      (c.query_with_rotation env prompt options).log.flatMap (fun s => s.messages)
  ∧ (∀ last, (c.query_with_rotation env prompt options).log.getLast? = some last →
        (last.error = none → (c.query_with_rotation env prompt options).error = none)
      ∧ (∀ e, last.error = some e →
          (c.query_with_rotation env prompt options).log.map (fun s => s.provider) =
            providers_to_try (options.getD {})
        ∧ (c.query_with_rotation env prompt options).error =
            some (.providerError "all" "All providers failed after retry attempts"
              (some ⟨(providers_to_try (options.getD {})).map Provider.value,
                some e.str, none⟩) (some e))))
  ∧ (∀ err, (c.query_with_rotation env prompt options).error = some err →
      ∃ e, err = .providerError "all" "All providers failed after retry attempts"
        (some ⟨(providers_to_try (options.getD {})).map Provider.value,
          some e.str, none⟩) (some e)) := by
  have hrw : c.query_with_rotation env prompt options =
      rotationGo env prompt (options.getD {}) (providers_to_try (options.getD {}))
        c (providers_to_try (options.getD {})) [] [] [] := rfl
  have hres := rotationGo_trace env prompt (options.getD {})
    (providers_to_try (options.getD {})) (providers_to_try_nodup _)
    (providers_to_try (options.getD {})) c [] [] []
    (by simp) (by unfold providers_to_try; exact List.cons_ne_nil _ _)
    (by intro s hs; cases hs) rfl rfl
  rw [hrw]
  have hlogne : (rotationGo env prompt (options.getD {})
      (providers_to_try (options.getD {})) c (providers_to_try (options.getD {}))
      [] [] []).log ≠ [] := by
    have hlen := hres.2.1
    simp only [List.length_nil] at hlen
    exact List.ne_nil_of_length_pos hlen
  refine ⟨rfl, hres.1, hlogne, hres.2.2.1, hres.2.2.2.1, hres.2.2.2.2.1,
    hres.2.2.2.2.2, ?_⟩
  intro err herr
  obtain ⟨last, hlast⟩ : ∃ x, (rotationGo env prompt (options.getD {})
      (providers_to_try (options.getD {})) c (providers_to_try (options.getD {}))
      [] [] []).log.getLast? = some x := by
    cases hl : (rotationGo env prompt (options.getD {})
        (providers_to_try (options.getD {})) c (providers_to_try (options.getD {}))
        [] [] []).log.getLast? with
    | none => exact absurd (List.getLast?_eq_none_iff.mp hl) hlogne
    | some x => exact ⟨x, rfl⟩
  have hF := hres.2.2.2.2.2 last hlast
  cases hlerr : last.error with
  | none =>
    have := hF.1 hlerr
    rw [this] at herr
    cases herr
  | some e =>
    have hagg := (hF.2 e hlerr).2
    rw [hagg] at herr
    exact ⟨e, by injection herr with h; exact h.symm⟩

/-- Closed witness giving C3's exhausted case concretely: every provider
fails with the same non-remediable error, and the rotation result is the
aggregate error naming claude, gemini, codex in order. -/
theorem C3_rotation_first_success_or_aggregate_witness :
    (ClaifClient.init.query_with_rotation
        { call := fun _ _ _ => ⟨[], some (.otherError "boom" none)⟩
          installFunc := fun _ => none } "hi" none).error =
      some (.providerError "all" "All providers failed after retry attempts"
        (some ⟨["claude", "gemini", "codex"], some "boom", none⟩)
        (some (.otherError "boom" none))) := by
  have hc := (C3_rotation_first_success_or_aggregate ClaifClient.init
      { call := fun _ _ _ => ⟨[], some (.otherError "boom" none)⟩
        installFunc := fun _ => none } "hi" none).2.2.2.2.2.2.1
  have := (hc ⟨.codex, [], some (.otherError "boom" none)⟩ rfl).2
    (.otherError "boom" none) rfl
  exact this.2

end Claif
